import Mathlib

/-!
Shallow embedding of `src/scripts/export_lfm2_onnx.py`.

The script is a linear orchestration of third-party library calls
(load tokenizer, load PyTorch model, convert to ONNX, save, smoke-test).
We model the external libraries and the network as an environment `Env` of
fallible oracles (Python exceptions become `Except String`), the filesystem
as an explicit state `FS` threaded through the workflow, and every
`logger.info` / `logger.warning` / `logger.error` / `print` call site as a
constructor of an `Event` trace.  Python floats are modelled as exact
rationals.
-/

namespace Lfm2Onnx

/-- A HuggingFace tokenizer as the script observes it: `pad_token` and
`eos_token` are `None`-able attributes in Python, hence `Option`; `attrs`
stands for every other persisted tokenizer attribute (vocabulary, merges,
configuration entries). -/
structure Tokenizer where
  pad_token : Option String
  eos_token : Option String
  attrs : List (String × String)
deriving DecidableEq, Repr

/-- Opaque value returned by `AutoModelForCausalLM.from_pretrained`. -/
structure PTModel where
  weights : List Int
deriving DecidableEq, Repr

/-- Opaque value returned by `ORTModelForCausalLM.from_pretrained`. -/
structure OnnxModel where
  graph : List Int
deriving DecidableEq, Repr

/-- One observable output of the script: each constructor is one
`logger.*` or `print` call site of `export_lfm2_onnx.py`, carrying the
dynamic data interpolated into its message. `printUsage` stands for the
whole block of `print` calls issued by `print_usage_instructions`. -/
inductive Event where
  | logStarting (model_id : String)
  | logLoadingTokenizer
  | logTokenizerSaved (dir : String)
  | logLoadingModel
  | logExporting
  | logModelSaved (dir : String)
  | logVerifying
  | logVerifySuccess (text : String)
  | warnVerifyFailed (e : String)
  | warnMayHaveIssues
  | logSuccessBanner
  | logModelSavedTo (dir : String)
  | logModelSize (dir : String)
  | logExportFailed (e : String)
  | printUsage (dir : String)
  | printMissingPackages (e : String)
  | printInstallHint
deriving DecidableEq, Repr

/-- The filesystem as the script mutates it: created directories, and the
bundles written by `tokenizer.save_pretrained` / `onnx_model.save_pretrained`
into a directory.  Writes are consed, so the head entry for a directory is
the most recent write (re-running overwrites). -/
structure FS where
  dirs : List String
  tokenizerFiles : List (String × Tokenizer)
  modelFiles : List (String × OnnxModel)
deriving DecidableEq, Repr

def FS.empty : FS := ⟨[], [], []⟩

/-- `Path.mkdir(parents=True, exist_ok=True)`. -/
def FS.mkdir (fs : FS) (d : String) : FS :=
  { fs with dirs := d :: fs.dirs }

/-- `tokenizer.save_pretrained(output_path)`. -/
def FS.saveTokenizer (fs : FS) (d : String) (t : Tokenizer) : FS :=
  { fs with tokenizerFiles := (d, t) :: fs.tokenizerFiles }

/-- `onnx_model.save_pretrained(output_path)`. -/
def FS.saveModel (fs : FS) (d : String) (m : OnnxModel) : FS :=
  { fs with modelFiles := (d, m) :: fs.modelFiles }

/-- The tokenizer bundle currently persisted in directory `d`, if any. -/
def FS.savedTokenizer (fs : FS) (d : String) : Option Tokenizer :=
  (fs.tokenizerFiles.find? (fun p => p.1 == d)).map Prod.snd

/-- The converted-model bundle currently persisted in directory `d`, if any. -/
def FS.savedModel (fs : FS) (d : String) : Option OnnxModel :=
  (fs.modelFiles.find? (fun p => p.1 == d)).map Prod.snd

/-- The external world: each field is one third-party call the script makes,
returning `.error e` when the Python call would raise an exception `e`.
`missingPackages` models the module-level `ImportError` guard: `some e` when
a required third-party package fails to load.  The `generate` oracle folds
the tokenization of the test prompt, `model.generate`, and
`tokenizer.decode` of `verify_export` into one fallible call. -/
structure Env where
  missingPackages : Option String
  from_pretrained_tokenizer : String → Except String Tokenizer
  from_pretrained_model : String → String → String → Except String PTModel
  ort_from_pretrained_export : String → String → Except String OnnxModel
  ort_from_pretrained_load : String → Except String OnnxModel
  generate : OnnxModel → Tokenizer → Except String String
  cuda_available : Bool

/-- Lines 59-60: `if tokenizer.pad_token is None: tokenizer.pad_token =
tokenizer.eos_token`. -/
def resolvePadToken (t : Tokenizer) : Tokenizer :=
  if t.pad_token = none then { t with pad_token := t.eos_token } else t

/-- `verify_export(model_path, tokenizer)` (lines 104-130): reload the
persisted artifact and run one generation; its whole body is inside
`try/except`, so it never propagates an exception and only contributes
trace events. -/
def verify_export (env : Env) (model_path : String) (tokenizer : Tokenizer) :
    List Event :=
  match env.ort_from_pretrained_load model_path with
  | .error e => [.warnVerifyFailed e, .warnMayHaveIssues]
  | .ok model =>
      match env.generate model tokenizer with
      | .error e => [.warnVerifyFailed e, .warnMayHaveIssues]
      | .ok generated_text => [.logVerifySuccess generated_text]

/-- Outcome of running a workflow function: the returned-or-raised value,
the filesystem left behind, and the emitted trace. -/
structure RunOut (α : Type) where
  result : Except String α
  fs : FS
  trace : List Event
deriving Repr

/-- Lines 166-182 of `main`: the parsed command-line arguments
(`--model_id`, `--output_dir`, `--verify`). -/
structure Args where
  model_id : String
  output_dir : String
  verify : Bool
deriving DecidableEq, Repr

/-- The body of the `try:` block of `export_lfm2_to_onnx` (lines 53-98):
load tokenizer, resolve pad token, save tokenizer, load PyTorch model
(value bound but never used afterwards), convert to ONNX with a
CUDA-or-CPU execution provider, save, verify, report. -/
def export_body (env : Env) (model_id output_dir : String) (fs : FS) :
    RunOut Unit :=
  let t1 : List Event := [.logLoadingTokenizer]
  match env.from_pretrained_tokenizer model_id with
  | .error e => ⟨.error e, fs, t1⟩
  | .ok tok =>
      let tokenizer := resolvePadToken tok
      let fs2 := fs.saveTokenizer output_dir tokenizer
      let t2 := t1 ++ [.logTokenizerSaved output_dir, .logLoadingModel]
      match env.from_pretrained_model model_id "float16" "auto" with
      | .error e => ⟨.error e, fs2, t2⟩
      | .ok _model =>
          let t3 := t2 ++ [.logExporting]
          let provider :=
            if env.cuda_available then "CUDAExecutionProvider"
            else "CPUExecutionProvider"
          match env.ort_from_pretrained_export model_id provider with
          | .error e => ⟨.error e, fs2, t3⟩
          | .ok onnx_model =>
              let fs3 := fs2.saveModel output_dir onnx_model
              let t4 := t3 ++ [.logModelSaved output_dir, .logVerifying]
              let tv := verify_export env output_dir tokenizer
              let t5 := t4 ++ tv ++
                [.logSuccessBanner, .logModelSavedTo output_dir,
                 .logModelSize output_dir, .printUsage output_dir]
              ⟨.ok (), fs3, t5⟩

/-- `export_lfm2_to_onnx(model_id, output_dir)` (lines 38-102): make the
output directory, run the body, and on any exception log
`Export failed: ...` and re-raise (`except Exception as e: logger.error(...);
raise`). -/
def export_lfm2_to_onnx (env : Env) (model_id output_dir : String)
    (fs : FS) : RunOut Unit :=
  let pre : List Event := [.logStarting model_id]
  let fs1 := fs.mkdir output_dir
  let r := export_body env model_id output_dir fs1
  match r.result with
  | .error e =>
      ⟨.error e, r.fs, pre ++ r.trace ++ [.logExportFailed e]⟩
  | .ok _ => ⟨.ok (), r.fs, pre ++ r.trace⟩

/-- `main()` (lines 163-183): parse arguments, then call
`export_lfm2_to_onnx(args.model_id, args.output_dir)` — note `args.verify`
is never consulted. -/
def main (env : Env) (args : Args) (fs : FS) : RunOut Unit :=
  export_lfm2_to_onnx env args.model_id args.output_dir fs

/-- Whole-process outcome: either the module-level import guard called
`exit(1)` after printing, or the workflow ran. -/
inductive ScriptOutcome where
  | exited (code : Nat) (printed : List Event)
  | ran (out : RunOut Unit)

/-- The module as executed (lines 25-36, 185-186): the `try: import ...
except ImportError` guard runs before logging configuration, argument
parsing and the export; on a missing package it prints two messages and
calls `exit(1)`. -/
def runScript (env : Env) (args : Args) (fs : FS) : ScriptOutcome :=
  match env.missingPackages with
  | some e => .exited 1 [.printMissingPackages e, .printInstallHint]
  | none => .ran (main env args fs)

/-! ## File-size model for `get_dir_size` (lines 132-138)

`get_dir_size` walks the real directory tree with `path.rglob('*')`,
sums `st_size` of every entry that `is_file()`, and returns
`round(total_size / (1024 * 1024), 2)`.  We model the on-disk tree as
`FsNode`, `rglob` as the recursive enumeration of all entries under a
node, and Python's `round` (banker's rounding, half-to-even) on exact
rationals. -/

/-- A node of the on-disk tree: a regular file with its byte size, or a
directory with its children. -/
inductive FsNode where
  | file (name : String) (size : Nat)
  | dir (name : String) (children : List FsNode)

/-- `entry.is_file()`. -/
def FsNode.is_file : FsNode → Bool
  | .file _ _ => true
  | .dir _ _ => false

/-- `entry.stat().st_size` (0 for directories; the script never reads a
directory's own size since `is_file()` filters them out). -/
def FsNode.st_size : FsNode → Nat
  | .file _ s => s
  | .dir _ _ => 0

mutual

/-- `path.rglob('*')`: every entry (file or directory) strictly below the
node, recursively. -/
def FsNode.rglob : FsNode → List FsNode
  | .file _ _ => []
  | .dir _ cs => rglobList cs

def rglobList : List FsNode → List FsNode
  | [] => []
  | c :: cs => (c :: c.rglob) ++ rglobList cs

end

/-- Python's `round` to an integer: half-to-even (banker's rounding), on
exact rationals. -/
def roundHalfEven (q : ℚ) : ℤ :=
  if q - (⌊q⌋ : ℚ) < 1/2 then ⌊q⌋
  else if 1/2 < q - (⌊q⌋ : ℚ) then ⌊q⌋ + 1
  else if ⌊q⌋ % 2 = 0 then ⌊q⌋ else ⌊q⌋ + 1

/-- Python's `round(x, 2)`. -/
def roundTo2 (q : ℚ) : ℚ := (roundHalfEven (q * 100) : ℚ) / 100

/-- `get_dir_size(path)` (lines 132-138): sum `st_size` over the
`is_file()` entries of `path.rglob('*')`, then report in MB rounded to
two decimals. -/
def get_dir_size (path : FsNode) : ℚ :=
  let total_size : ℕ :=
    (path.rglob.filter FsNode.is_file).foldl (fun acc f => acc + f.st_size) 0
  roundTo2 ((total_size : ℚ) / (1024 * 1024))

/-- Following the spec's words, for comparison with `get_dir_size`: "the
sum of the sizes of all regular files recursively under that directory". -/
def sumRegularFileSizes (path : FsNode) : Nat :=
  ((path.rglob.filter FsNode.is_file).map FsNode.st_size).sum

/-! ## Concrete test fixtures -/

/-- A tokenizer that already has a pad token. -/
def tokA : Tokenizer :=
  { pad_token := some "<pad>", eos_token := some "<eos>",
    attrs := [("vocab", "v0"), ("chat_template", "lfm2")] }

/-- A tokenizer with no pad token but a defined eos token. -/
def tokB : Tokenizer :=
  { pad_token := none, eos_token := some "<eos>", attrs := [("vocab", "v0")] }

/-- A tokenizer with neither pad nor eos token defined. -/
def tokC : Tokenizer :=
  { pad_token := none, eos_token := none, attrs := [] }

/-- An environment in which every external call succeeds. -/
def envOk : Env :=
  { missingPackages := none
    from_pretrained_tokenizer := fun _ => .ok tokA
    from_pretrained_model := fun _ _ _ => .ok ⟨[1, 2]⟩
    ort_from_pretrained_export := fun _ _ => .ok ⟨[3, 4]⟩
    ort_from_pretrained_load := fun _ => .ok ⟨[3, 4]⟩
    generate := fun _ _ => .ok "Hello, I am a language model"
    cuda_available := false }

/-- All calls succeed, but the loaded tokenizer has no pad and no eos token. -/
def envNoEos : Env :=
  { envOk with from_pretrained_tokenizer := fun _ => .ok tokC }

/-- All calls succeed, but the loaded tokenizer has no pad token (eos defined). -/
def envNoPad : Env :=
  { envOk with from_pretrained_tokenizer := fun _ => .ok tokB }

/-- Tokenizer acquisition raises. -/
def envTokFail : Env :=
  { envOk with from_pretrained_tokenizer := fun _ => .error "HTTPError 404" }

/-- PyTorch model acquisition raises; everything else succeeds. -/
def envModelFail : Env :=
  { envOk with from_pretrained_model := fun _ _ _ => .error "CUDA out of memory" }

/-- ONNX conversion raises. -/
def envConvertFail : Env :=
  { envOk with ort_from_pretrained_export := fun _ _ => .error "unsupported op" }

/-- The verification reload of the persisted artifact raises. -/
def envVerifyLoadFail : Env :=
  { envOk with ort_from_pretrained_load := fun _ => .error "corrupt onnx graph" }

/-- The verification generation call raises. -/
def envGenerateFail : Env :=
  { envOk with generate := fun _ _ => .error "shape mismatch" }

/-- A required third-party package is missing at import time. -/
def envNoTorch : Env :=
  { envOk with missingPackages := some "No module named torch" }

/-! ## Variant for claim C10 -/

/-- Following the claim's words: the body of `export_lfm2_to_onnx` with the
PyTorch model-load step (lines 66-73, `AutoModelForCausalLM.from_pretrained`
and its log line) removed; everything else is as in `export_body`. -/
def export_body_without_pt_load (env : Env) (model_id output_dir : String)
    (fs : FS) : RunOut Unit :=
  let t1 : List Event := [.logLoadingTokenizer]
  match env.from_pretrained_tokenizer model_id with
  | .error e => ⟨.error e, fs, t1⟩
  | .ok tok =>
      let tokenizer := resolvePadToken tok
      let fs2 := fs.saveTokenizer output_dir tokenizer
      let t2 := t1 ++ [.logTokenizerSaved output_dir]
      let t3 := t2 ++ [.logExporting]
      let provider :=
        if env.cuda_available then "CUDAExecutionProvider"
        else "CPUExecutionProvider"
      match env.ort_from_pretrained_export model_id provider with
      | .error e => ⟨.error e, fs2, t3⟩
      | .ok onnx_model =>
          let fs3 := fs2.saveModel output_dir onnx_model
          let t4 := t3 ++ [.logModelSaved output_dir, .logVerifying]
          let tv := verify_export env output_dir tokenizer
          let t5 := t4 ++ tv ++
            [.logSuccessBanner, .logModelSavedTo output_dir,
             .logModelSize output_dir, .printUsage output_dir]
          ⟨.ok (), fs3, t5⟩

/-- Following the claim's words: `export_lfm2_to_onnx` with the PyTorch
model-load step removed. -/
def export_without_pt_load (env : Env) (model_id output_dir : String)
    (fs : FS) : RunOut Unit :=
  let pre : List Event := [.logStarting model_id]
  let fs1 := fs.mkdir output_dir
  let r := export_body_without_pt_load env model_id output_dir fs1
  match r.result with
  | .error e =>
      ⟨.error e, r.fs, pre ++ r.trace ++ [.logExportFailed e]⟩
  | .ok _ => ⟨.ok (), r.fs, pre ++ r.trace⟩

/-! ## Helper lemmas -/

lemma foldl_add_st_size (l : List FsNode) (n : ℕ) :
    l.foldl (fun acc f => acc + f.st_size) n = n + (l.map FsNode.st_size).sum := by
  induction l generalizing n with
  | nil => simp
  | cons c cs ih =>
      simp only [List.foldl_cons, List.map_cons, List.sum_cons, ih]
      omega

/-- As soon as the tokenizer loads, it is saved (pad token resolved) into
the output directory, and no later step of the run removes or replaces it. -/
lemma export_fs_after_tok_ok (env : Env) (mid od : String) (fs : FS)
    (tok : Tokenizer) (h : env.from_pretrained_tokenizer mid = .ok tok) :
    (export_lfm2_to_onnx env mid od fs).fs.savedTokenizer od
      = some (resolvePadToken tok) := by
  unfold export_lfm2_to_onnx export_body
  rw [h]
  rcases hm : env.from_pretrained_model mid "float16" "auto" with e | m <;>
    simp only [hm]
  · simp [FS.savedTokenizer, FS.saveTokenizer, FS.mkdir]
  · rcases hx : env.ort_from_pretrained_export mid
        (if env.cuda_available then "CUDAExecutionProvider"
         else "CPUExecutionProvider") with e | onnx <;> simp only [hx]
    · simp [FS.savedTokenizer, FS.saveTokenizer, FS.mkdir]
    · simp [FS.savedTokenizer, FS.saveTokenizer, FS.saveModel, FS.mkdir]

lemma roundHalfEven_nonneg (q : ℚ) (h : 0 ≤ q) : 0 ≤ roundHalfEven q := by
  have hf : 0 ≤ ⌊q⌋ := Int.floor_nonneg.mpr h
  unfold roundHalfEven
  split_ifs <;> omega

lemma abs_roundHalfEven_sub (q : ℚ) : |(roundHalfEven q : ℚ) - q| ≤ 1 / 2 := by
  have hfl : (⌊q⌋ : ℚ) ≤ q := Int.floor_le q
  have hfu : q < ⌊q⌋ + 1 := Int.lt_floor_add_one q
  unfold roundHalfEven
  split_ifs with h1 h2 h3 <;> rw [abs_le] <;> constructor <;> push_cast <;> linarith

lemma roundTo2_nonneg (q : ℚ) (h : 0 ≤ q) : 0 ≤ roundTo2 q := by
  unfold roundTo2
  have h2 : 0 ≤ roundHalfEven (q * 100) :=
    roundHalfEven_nonneg _ (mul_nonneg h (by norm_num))
  have h3 : (0 : ℚ) ≤ (roundHalfEven (q * 100) : ℚ) := by exact_mod_cast h2
  exact div_nonneg h3 (by norm_num)

lemma abs_roundTo2_sub (q : ℚ) : |roundTo2 q - q| ≤ 1 / 200 := by
  have h := abs_roundHalfEven_sub (q * 100)
  rw [abs_le] at h ⊢
  unfold roundTo2
  constructor <;> linarith [h.1, h.2]

/-! ## Claim C5: the reported artifact size -/

/-- C5, counterexample: for a directory holding a single 1-byte regular
file, `get_dir_size` reports `0` (MB, rounded to two decimals), which is
not equal to the byte sum `1` of all regular files under the directory —
so the reported size is not, as the claim states, "equal to the sum of
the sizes of all regular files recursively under that directory". -/
theorem c5_counterexample :
    get_dir_size (FsNode.dir "out" [FsNode.file "a" 1]) = 0 ∧
    sumRegularFileSizes (FsNode.dir "out" [FsNode.file "a" 1]) = 1 ∧
    get_dir_size (FsNode.dir "out" [FsNode.file "a" 1]) ≠
      (sumRegularFileSizes (FsNode.dir "out" [FsNode.file "a" 1]) : ℚ) := by
  norm_num [get_dir_size, sumRegularFileSizes, FsNode.rglob, rglobList,
    FsNode.is_file, FsNode.st_size, roundTo2, roundHalfEven, List.filter,
    List.foldl, List.map]

/-- C5, amended: for every output directory, the reported artifact size is
the sum of the sizes of all regular files recursively under that
directory, converted to MB (divided by 1024²) and rounded to two decimal
places; consequently it is non-negative and within 1/200 MB of the exact
MB total. -/
theorem c5_dir_size_amended (path : FsNode) :
    get_dir_size path
        = roundTo2 ((sumRegularFileSizes path : ℚ) / (1024 * 1024))
      ∧ 0 ≤ get_dir_size path
      ∧ |get_dir_size path - (sumRegularFileSizes path : ℚ) / (1024 * 1024)|
          ≤ 1 / 200 := by
  have hlink : get_dir_size path
      = roundTo2 ((sumRegularFileSizes path : ℚ) / (1024 * 1024)) := by
    unfold get_dir_size sumRegularFileSizes
    rw [foldl_add_st_size]
    norm_num
  refine ⟨hlink, ?_, ?_⟩
  · rw [hlink]
    exact roundTo2_nonneg _ (by positivity)
  · rw [hlink]
    exact abs_roundTo2_sub _

/-! ## Claim C1: pad-token resolution -/

/-- C1, counterexample: the claim promises a *defined* persisted pad token
whenever the loaded tokenizer's pad token is `None`; but when the loaded
tokenizer also has no end-of-sequence token (`tokC`), the run saves a
tokenizer whose pad token is still `none` — undefined. -/
theorem c1_counterexample :
    envNoEos.from_pretrained_tokenizer "LiquidAI/LFM2-350M" = .ok tokC
    ∧ tokC.pad_token = none
    ∧ ((export_lfm2_to_onnx envNoEos "LiquidAI/LFM2-350M"
          "./models/lfm2-350m-onnx" FS.empty).fs.savedTokenizer
          "./models/lfm2-350m-onnx").map Tokenizer.pad_token
        = some none := ⟨rfl, rfl, rfl⟩

/-- C1, amended: if the tokenizer loaded for the given model identifier has
no pad token defined, the pad token is set to the end-of-sequence token
before the tokenizer is saved, so the persisted tokenizer's pad token
equals the loaded end-of-sequence token — in particular it is defined
whenever the end-of-sequence token is defined. -/
theorem c1_pad_token_amended (env : Env) (mid od : String) (fs : FS)
    (tok : Tokenizer)
    (h : env.from_pretrained_tokenizer mid = .ok tok)
    (hpad : tok.pad_token = none) :
    ((export_lfm2_to_onnx env mid od fs).fs.savedTokenizer od).map
        Tokenizer.pad_token = some tok.eos_token := by
  rw [export_fs_after_tok_ok env mid od fs tok h]
  simp [resolvePadToken, hpad]

/-- C1, witness: `envNoPad` loads `tokB` (no pad token, eos `"<eos>"`);
the persisted pad token is `some "<eos>"`. -/
theorem c1_witness :
    ((export_lfm2_to_onnx envNoPad "m" "o" FS.empty).fs.savedTokenizer
        "o").map Tokenizer.pad_token = some (some "<eos>") := by
  have h := c1_pad_token_amended envNoPad "m" "o" FS.empty tokB rfl rfl
  simpa [tokB] using h

/-! ## Claim C9: pre-existing pad token left unchanged -/

/-- C9: if the loaded tokenizer already has a pad token, the
end-of-sequence substitution does not fire and the tokenizer is saved
exactly as loaded — pad token, eos token and every other attribute
unchanged. -/
theorem c9_pad_token_frame (env : Env) (mid od : String) (fs : FS)
    (tok : Tokenizer) (p : String)
    (h : env.from_pretrained_tokenizer mid = .ok tok)
    (hpad : tok.pad_token = some p) :
    (export_lfm2_to_onnx env mid od fs).fs.savedTokenizer od = some tok := by
  rw [export_fs_after_tok_ok env mid od fs tok h]
  simp [resolvePadToken, hpad]

/-- C9, witness: `envOk` loads `tokA` (pad token `"<pad>"`); the persisted
tokenizer is exactly `tokA`. -/
theorem c9_witness :
    (export_lfm2_to_onnx envOk "m" "o" FS.empty).fs.savedTokenizer "o"
      = some tokA :=
  c9_pad_token_frame envOk "m" "o" FS.empty tokA "<pad>" rfl rfl

/-! ## Claim C8: a successful run leaves both artifacts on disk -/

/-- C8: whenever `export_lfm2_to_onnx` returns without raising, the output
directory holds both a saved tokenizer bundle and a saved converted-model
bundle. -/
theorem c8_success_artifacts (env : Env) (mid od : String) (fs : FS)
    (h : (export_lfm2_to_onnx env mid od fs).result = .ok ()) :
    ((export_lfm2_to_onnx env mid od fs).fs.savedTokenizer od).isSome = true
    ∧ ((export_lfm2_to_onnx env mid od fs).fs.savedModel od).isSome = true := by
  unfold export_lfm2_to_onnx export_body at h ⊢
  rcases ht : env.from_pretrained_tokenizer mid with e | tok <;>
    simp only [ht] at h ⊢
  · simp at h
  · rcases hm : env.from_pretrained_model mid "float16" "auto" with e | m <;>
      simp only [hm] at h ⊢
    · simp at h
    · rcases hx : env.ort_from_pretrained_export mid
          (if env.cuda_available then "CUDAExecutionProvider"
           else "CPUExecutionProvider") with e | onnx <;>
        simp only [hx] at h ⊢
      · simp at h
      · simp [FS.savedTokenizer, FS.savedModel, FS.saveTokenizer,
          FS.saveModel, FS.mkdir]

/-- C8, witness: in the all-success environment the run returns `.ok` and
both bundles are present. -/
theorem c8_witness :
    ((export_lfm2_to_onnx envOk "m" "o" FS.empty).fs.savedTokenizer
        "o").isSome = true
    ∧ ((export_lfm2_to_onnx envOk "m" "o" FS.empty).fs.savedModel
        "o").isSome = true :=
  c8_success_artifacts envOk "m" "o" FS.empty rfl

/-! ## Claim C7: tokenizer persisted before model loading and conversion -/

/-- C7: once the tokenizer loads, the trace begins with the tokenizer-save
event strictly before the model-load event; the resolved tokenizer is on
disk in the output directory in every continuation of the run, so a run in
which PyTorch model loading or ONNX conversion raises still ends (with
that exception re-raised) with the tokenizer files written. -/
theorem c7_tokenizer_saved_first (env : Env) (mid od : String) (fs : FS)
    (tok : Tokenizer)
    (h : env.from_pretrained_tokenizer mid = .ok tok) :
    (∃ rest, (export_lfm2_to_onnx env mid od fs).trace
        = [.logStarting mid, .logLoadingTokenizer, .logTokenizerSaved od,
           .logLoadingModel] ++ rest)
    ∧ (export_lfm2_to_onnx env mid od fs).fs.savedTokenizer od
        = some (resolvePadToken tok)
    ∧ (∀ e, env.from_pretrained_model mid "float16" "auto" = .error e →
        (export_lfm2_to_onnx env mid od fs).result = .error e)
    ∧ (∀ m e, env.from_pretrained_model mid "float16" "auto" = .ok m →
        env.ort_from_pretrained_export mid
            (if env.cuda_available then "CUDAExecutionProvider"
             else "CPUExecutionProvider") = .error e →
        (export_lfm2_to_onnx env mid od fs).result = .error e) := by
  refine ⟨?_, export_fs_after_tok_ok env mid od fs tok h, ?_, ?_⟩
  · unfold export_lfm2_to_onnx export_body
    rw [h]
    rcases hm : env.from_pretrained_model mid "float16" "auto" with e | m <;>
      simp only [hm]
    · exact ⟨[.logExportFailed e], by simp⟩
    · rcases hx : env.ort_from_pretrained_export mid
          (if env.cuda_available then "CUDAExecutionProvider"
           else "CPUExecutionProvider") with e | onnx <;> simp only [hx]
      · exact ⟨[.logExporting, .logExportFailed e], by simp⟩
      · exact ⟨[Event.logExporting, Event.logModelSaved od,
            Event.logVerifying] ++ verify_export env od (resolvePadToken tok)
            ++ [Event.logSuccessBanner, Event.logModelSavedTo od,
                Event.logModelSize od, Event.printUsage od], by simp⟩
  · intro e hm
    unfold export_lfm2_to_onnx export_body
    rw [h]
    simp [hm]
  · intro m e hm hx
    unfold export_lfm2_to_onnx export_body
    rw [h]
    simp [hm, hx]

/-- C7, witness: conversion fails in `envConvertFail`, the error is
re-raised, and the tokenizer bundle is nonetheless on disk. -/
theorem c7_witness :
    (export_lfm2_to_onnx envConvertFail "m" "o" FS.empty).fs.savedTokenizer
        "o" = some (resolvePadToken tokA)
    ∧ (export_lfm2_to_onnx envConvertFail "m" "o" FS.empty).result
        = .error "unsupported op" := by
  have h := c7_tokenizer_saved_first envConvertFail "m" "o" FS.empty tokA rfl
  exact ⟨h.2.1, h.2.2.2 ⟨[1, 2]⟩ "unsupported op" rfl rfl⟩

/-! ## Claim C3: acquisition/conversion failures propagate -/

/-- C3: if tokenizer acquisition, PyTorch model acquisition, or ONNX
conversion raises `e`, then `export_lfm2_to_onnx` logs `Export failed: e`
and re-raises the same exception, and neither the success banner nor the
usage instructions appear in the output. -/
theorem c3_failure_propagates (env : Env) (mid od : String) (fs : FS)
    (e : String)
    (h : env.from_pretrained_tokenizer mid = .error e
       ∨ (∃ tok, env.from_pretrained_tokenizer mid = .ok tok
            ∧ env.from_pretrained_model mid "float16" "auto" = .error e)
       ∨ (∃ tok m, env.from_pretrained_tokenizer mid = .ok tok
            ∧ env.from_pretrained_model mid "float16" "auto" = .ok m
            ∧ env.ort_from_pretrained_export mid
                (if env.cuda_available then "CUDAExecutionProvider"
                 else "CPUExecutionProvider") = .error e)) :
    (export_lfm2_to_onnx env mid od fs).result = .error e
    ∧ Event.logExportFailed e ∈ (export_lfm2_to_onnx env mid od fs).trace
    ∧ Event.logSuccessBanner ∉ (export_lfm2_to_onnx env mid od fs).trace
    ∧ Event.printUsage od ∉ (export_lfm2_to_onnx env mid od fs).trace := by
  unfold export_lfm2_to_onnx export_body
  rcases h with ht | ⟨tok, ht, hm⟩ | ⟨tok, m, ht, hm, hx⟩
  · simp [ht]
  · simp [ht, hm]
  · simp [ht, hm, hx]

/-- C3, witness: tokenizer acquisition fails in `envTokFail`; the same
exception comes back out, `Export failed` is logged, and neither the
success banner nor the usage instructions are emitted. -/
theorem c3_witness :
    (export_lfm2_to_onnx envTokFail "m" "o" FS.empty).result
        = .error "HTTPError 404"
    ∧ Event.logExportFailed "HTTPError 404"
        ∈ (export_lfm2_to_onnx envTokFail "m" "o" FS.empty).trace
    ∧ Event.logSuccessBanner
        ∉ (export_lfm2_to_onnx envTokFail "m" "o" FS.empty).trace
    ∧ Event.printUsage "o"
        ∉ (export_lfm2_to_onnx envTokFail "m" "o" FS.empty).trace :=
  c3_failure_propagates envTokFail "m" "o" FS.empty "HTTPError 404"
    (Or.inl rfl)

/-! ## Claim C2: verification failure is non-fatal -/

/-- C2: once tokenizer, model and conversion succeed, the run returns
`.ok` and emits the success banner and the usage instructions *whatever*
the verification sub-step does; moreover if the verification reload or the
generation call raises `e`, a `Model verification failed` warning is
logged instead of propagating the exception. -/
theorem c2_verify_failure_nonfatal (env : Env) (mid od : String) (fs : FS)
    (tok : Tokenizer) (m : PTModel) (onnx : OnnxModel)
    (h1 : env.from_pretrained_tokenizer mid = .ok tok)
    (h2 : env.from_pretrained_model mid "float16" "auto" = .ok m)
    (h3 : env.ort_from_pretrained_export mid
        (if env.cuda_available then "CUDAExecutionProvider"
         else "CPUExecutionProvider") = .ok onnx) :
    (export_lfm2_to_onnx env mid od fs).result = .ok ()
    ∧ Event.logSuccessBanner ∈ (export_lfm2_to_onnx env mid od fs).trace
    ∧ Event.printUsage od ∈ (export_lfm2_to_onnx env mid od fs).trace
    ∧ (∀ e, env.ort_from_pretrained_load od = .error e →
        Event.warnVerifyFailed e ∈ (export_lfm2_to_onnx env mid od fs).trace)
    ∧ (∀ om e, env.ort_from_pretrained_load od = .ok om →
        env.generate om (resolvePadToken tok) = .error e →
        Event.warnVerifyFailed e
          ∈ (export_lfm2_to_onnx env mid od fs).trace) := by
  unfold export_lfm2_to_onnx export_body
  refine ⟨by simp [h1, h2, h3], by simp [h1, h2, h3], by simp [h1, h2, h3],
    ?_, ?_⟩
  · intro e he
    simp [h1, h2, h3, verify_export, he]
  · intro om e hom he
    simp [h1, h2, h3, verify_export, hom, he]

/-- C2, witness: in `envVerifyLoadFail` the verification reload raises,
yet the run succeeds, the banner and usage instructions appear, and the
warning is logged. -/
theorem c2_witness :
    (export_lfm2_to_onnx envVerifyLoadFail "m" "o" FS.empty).result = .ok ()
    ∧ Event.logSuccessBanner
        ∈ (export_lfm2_to_onnx envVerifyLoadFail "m" "o" FS.empty).trace
    ∧ Event.printUsage "o"
        ∈ (export_lfm2_to_onnx envVerifyLoadFail "m" "o" FS.empty).trace
    ∧ Event.warnVerifyFailed "corrupt onnx graph"
        ∈ (export_lfm2_to_onnx envVerifyLoadFail "m" "o" FS.empty).trace := by
  have h := c2_verify_failure_nonfatal envVerifyLoadFail "m" "o" FS.empty
    tokA ⟨[1, 2]⟩ ⟨[3, 4]⟩ rfl rfl rfl
  exact ⟨h.1, h.2.1, h.2.2.1, h.2.2.2.1 "corrupt onnx graph" rfl⟩

/-! ## Claim C4: the parsed `--verify` flag is never consulted -/

/-- C4: two invocations of `main` whose parsed arguments differ at most in
the `--verify` flag behave identically (same result, same filesystem, same
output), and whenever acquisition and conversion succeed the verification
sub-step runs in both — the flag's value has no effect. -/
theorem c4_verify_flag_unused (env : Env) (fs : FS) (a b : Args)
    (hm : a.model_id = b.model_id) (ho : a.output_dir = b.output_dir) :
    main env a fs = main env b fs
    ∧ (∀ tok m onnx,
        env.from_pretrained_tokenizer a.model_id = .ok tok →
        env.from_pretrained_model a.model_id "float16" "auto" = .ok m →
        env.ort_from_pretrained_export a.model_id
            (if env.cuda_available then "CUDAExecutionProvider"
             else "CPUExecutionProvider") = .ok onnx →
        Event.logVerifying ∈ (main env a fs).trace
        ∧ Event.logVerifying ∈ (main env b fs).trace) := by
  have hmain : main env a fs = main env b fs := by
    unfold main
    rw [hm, ho]
  refine ⟨hmain, ?_⟩
  intro tok m onnx h1 h2 h3
  have ha : Event.logVerifying ∈ (main env a fs).trace := by
    unfold main export_lfm2_to_onnx export_body
    simp [h1, h2, h3]
  exact ⟨ha, hmain ▸ ha⟩

/-- C4, witness: with `--verify` present versus absent, `main` behaves
identically and the verification step runs in both invocations. -/
theorem c4_witness :
    main envOk ⟨"m", "o", true⟩ FS.empty = main envOk ⟨"m", "o", false⟩ FS.empty
    ∧ Event.logVerifying ∈ (main envOk ⟨"m", "o", true⟩ FS.empty).trace
    ∧ Event.logVerifying ∈ (main envOk ⟨"m", "o", false⟩ FS.empty).trace := by
  have h := c4_verify_flag_unused envOk FS.empty ⟨"m", "o", true⟩
    ⟨"m", "o", false⟩ rfl rfl
  have h2 := h.2 tokA ⟨[1, 2]⟩ ⟨[3, 4]⟩ rfl rfl rfl
  exact ⟨h.1, h2.1, h2.2⟩

/-! ## Claim C6: the module-level import guard -/

/-- C6: if a required third-party package is missing, the process prints
the explanatory message and the install hint and exits with code 1; the
workflow (logging, argument parsing, export) never runs. -/
theorem c6_import_guard (env : Env) (args : Args) (fs : FS) (e : String)
    (h : env.missingPackages = some e) :
    runScript env args fs
        = .exited 1 [.printMissingPackages e, .printInstallHint]
    ∧ ∀ out, runScript env args fs ≠ ScriptOutcome.ran out := by
  have he : runScript env args fs
      = .exited 1 [.printMissingPackages e, .printInstallHint] := by
    simp [runScript, h]
  refine ⟨he, ?_⟩
  intro out hc
  rw [he] at hc
  exact ScriptOutcome.noConfusion hc

/-- C6, witness: with `torch` missing the process exits with code 1 after
the two prints. -/
theorem c6_witness :
    runScript envNoTorch ⟨"LiquidAI/LFM2-350M", "./models/lfm2-350m-onnx",
        false⟩ FS.empty
      = .exited 1 [.printMissingPackages "No module named torch",
          .printInstallHint] :=
  (c6_import_guard envNoTorch
    ⟨"LiquidAI/LFM2-350M", "./models/lfm2-350m-onnx", false⟩ FS.empty
    "No module named torch" rfl).1

/-! ## Claim C10: the PyTorch load step -/

/-- C10, counterexample: the claim says the workflow with the PyTorch load
step removed produces the same artifacts as the workflow with it; but in
an environment where that load raises (`envModelFail`) while conversion
would succeed, the original workflow aborts with no model files on disk,
whereas the workflow without the load step succeeds and writes them. -/
theorem c10_counterexample :
    (export_lfm2_to_onnx envModelFail "m" "o" FS.empty).result
        = .error "CUDA out of memory"
    ∧ (export_lfm2_to_onnx envModelFail "m" "o" FS.empty).fs.savedModel "o"
        = none
    ∧ (export_without_pt_load envModelFail "m" "o" FS.empty).result = .ok ()
    ∧ (export_without_pt_load envModelFail "m" "o" FS.empty).fs.savedModel
        "o" = some ⟨[3, 4]⟩ := ⟨rfl, rfl, rfl, rfl⟩

/-- C10, amended: the *value* of the loaded PyTorch model is never
consulted — replacing the load oracle by any other succeeding one leaves
the run unchanged — and in every run where the load step succeeds, the
workflow with the load step removed produces the same result and the same
artifacts (logs aside). -/
theorem c10_pt_load_amended (env : Env) (mid od : String) (fs : FS)
    (m : PTModel)
    (h : env.from_pretrained_model mid "float16" "auto" = .ok m) :
    (export_lfm2_to_onnx env mid od fs).result
        = (export_without_pt_load env mid od fs).result
    ∧ (export_lfm2_to_onnx env mid od fs).fs
        = (export_without_pt_load env mid od fs).fs
    ∧ (∀ g m', g mid "float16" "auto" = .ok m' →
        export_lfm2_to_onnx { env with from_pretrained_model := g } mid od fs
          = export_lfm2_to_onnx env mid od fs) := by
  refine ⟨?_, ?_, ?_⟩
  · unfold export_lfm2_to_onnx export_without_pt_load export_body
      export_body_without_pt_load
    rcases ht : env.from_pretrained_tokenizer mid with e | tok <;>
      simp only [ht]
    rcases hx : env.ort_from_pretrained_export mid
        (if env.cuda_available then "CUDAExecutionProvider"
         else "CPUExecutionProvider") with e | onnx <;> simp [h, hx]
  · unfold export_lfm2_to_onnx export_without_pt_load export_body
      export_body_without_pt_load
    rcases ht : env.from_pretrained_tokenizer mid with e | tok <;>
      simp only [ht]
    rcases hx : env.ort_from_pretrained_export mid
        (if env.cuda_available then "CUDAExecutionProvider"
         else "CPUExecutionProvider") with e | onnx <;> simp [h, hx]
  · intro g m' hg
    unfold export_lfm2_to_onnx export_body
    simp only [h, hg]
    rfl

/-- C10, witness: in the all-success environment the original workflow and
the one without the PyTorch load step agree on result and filesystem, and
swapping the load oracle for another succeeding one changes nothing. -/
theorem c10_witness :
    (export_lfm2_to_onnx envOk "m" "o" FS.empty).result
        = (export_without_pt_load envOk "m" "o" FS.empty).result
    ∧ (export_lfm2_to_onnx envOk "m" "o" FS.empty).fs
        = (export_without_pt_load envOk "m" "o" FS.empty).fs
    ∧ export_lfm2_to_onnx
          { envOk with from_pretrained_model := fun _ _ _ => .ok ⟨[9]⟩ }
          "m" "o" FS.empty
        = export_lfm2_to_onnx envOk "m" "o" FS.empty := by
  have h := c10_pt_load_amended envOk "m" "o" FS.empty ⟨[1, 2]⟩ rfl
  exact ⟨h.1, h.2.1, h.2.2 (fun _ _ _ => .ok ⟨[9]⟩) ⟨[9]⟩ rfl⟩

end Lfm2Onnx
